import Mathlib

/-!
Shallow embedding of the learning-companion agent, translated from
`src/1_foundations/learning_agent.py` and
`src/1_foundations/notebook_helper.py`.

Python exceptions are modelled with `Except PyError`; an `Except.error`
value is a raised exception propagating to the caller, while `Except.ok`
carries the value (or result dictionary) the Python code returns.
Generation requests to the OpenAI backend are modelled by recording the
prompt strings the code would send; the number of generation requests a
call issues is the number of recorded prompts.
-/

namespace LearnComp

/-- Python exceptions raised by the embedded code: `KeyError` (with the
missing key) and `IndexError`. -/
inductive PyError where
  | keyError (key : String)
  | indexError
  deriving DecidableEq, Repr

/-- The JSON value of a notebook cell `source` field: either a plain string
or an ordered list of string fragments (the two encodings accepted by
`parse_notebook`). -/
inductive SourceField where
  | str (s : String)
  | fragments (parts : List String)
  deriving DecidableEq, Repr

/-- A raw cell of the on-disk notebook JSON: each field is `none` when the
corresponding key is absent from the cell object. -/
structure RawCell where
  cell_type : Option String
  source : Option SourceField
  id : Option String
  deriving DecidableEq, Repr

/-- The root notebook JSON object; `cells = none` models a document whose
root object lacks the `cells` key. -/
structure Notebook where
  cells : Option (List RawCell)
  deriving DecidableEq, Repr

/-- A parsed cell record, as built by `LearningAgent.parse_notebook`. -/
structure Cell where
  index : Nat
  type : String
  source : String
  id : String
  deriving DecidableEq, Repr

/-- Normalization of the `source` field performed by `parse_notebook`:
`cell.source` when it is a plain string, `str.join(cell.source)` with the
empty separator when it is a list of fragments. -/
def normalizeSource : SourceField → String
  | .str s => s
  | .fragments parts => String.join parts

/-- One iteration of the `parse_notebook` loop: building the record for the
cell at position `idx`. Accessing a missing `cell_type` or `source` key
raises `KeyError` (the `cell_type` access happens first in the Python dict
literal); a missing `id` defaults to `cell-<idx>`. -/
def parseCell (idx : Nat) (c : RawCell) : Except PyError Cell :=
  match c.cell_type with
  | none => .error (.keyError "cell_type")
  | some t =>
    match c.source with
    | none => .error (.keyError "source")
    | some src =>
      .ok { index := idx, type := t, source := normalizeSource src,
            id := c.id.getD ("cell-" ++ toString idx) }

/-- The `parse_notebook` loop over `enumerate(notebook.cells)` starting at
position `idx`: the first raised exception aborts the whole loop. -/
def parseCells : Nat → List RawCell → Except PyError (List Cell)
  | _, [] => .ok []
  | idx, c :: rest =>
    match parseCell idx c with
    | .error e => .error e
    | .ok cell =>
      match parseCells (idx + 1) rest with
      | .error e => .error e
      | .ok others => .ok (cell :: others)

/-- `LearningAgent.parse_notebook`: accessing `notebook.cells` raises
`KeyError` when the root object has no `cells` key; otherwise the cells are
parsed in order. -/
def parse_notebook (nb : Notebook) : Except PyError (List Cell) :=
  match nb.cells with
  | none => .error (.keyError "cells")
  | some cs => parseCells 0 cs

/-- Python list indexing `l[i]` with an `int` index: non-negative indices
below the length are positional, indices in `[-len, -1]` count from the
end, anything else raises `IndexError`. -/
def pyGet {α : Type} (l : List α) (i : Int) : Except PyError α :=
  if h : 0 ≤ i ∧ i < (l.length : Int) then
    .ok (l.get ⟨i.toNat, by omega⟩)
  else if h2 : -(l.length : Int) ≤ i ∧ i < 0 then
    .ok (l.get ⟨((l.length : Int) + i).toNat, by omega⟩)
  else
    .error .indexError

/-- Python string slicing `s[:n]`: the first `n` characters (code points)
of `s`, or all of `s` when it is shorter. -/
def pyTake (s : String) (n : Nat) : String := (s.toList.take n).asString

/-- Python `str.strip()`: leading and trailing whitespace characters
removed. -/
def pyStrip (s : String) : String :=
  ((s.toList.dropWhile Char.isWhitespace).reverse.dropWhile Char.isWhitespace).reverse.asString

/-- The context line `explain_concept` appends for one code cell:
`f"Cell \x7bcell.index\x7d: \x7bcell.source[:100]\x7d...\n"`. The `...`
marker is part of the format string, hence appended unconditionally. -/
def cellSnippet (c : Cell) : String :=
  "Cell " ++ toString c.index ++ ": " ++ pyTake c.source 100 ++ "...\n"

/-- The Python slice `context_cells[-3:]`: the last three cells of the list
(of any kind), or the whole list when it has fewer than three cells. -/
def lastThree (l : List Cell) : List Cell := l.drop (l.length - 3)

/-- The cells that contribute snippets to the context: `explain_concept`
iterates over `context_cells[-3:]` and keeps those whose type is `code`. -/
def contextWindow (l : List Cell) : List Cell :=
  (lastThree l).filter (fun c => c.type == "code")

/-- The `context` string built at the top of `explain_concept`:
empty for a `None` or empty `context_cells` argument (both falsy),
otherwise a header line followed by one snippet line per retained cell. -/
def buildContext : Option (List Cell) → String
  | none => ""
  | some cs =>
    if cs.isEmpty then ""
    else "Previous cells executed:\n" ++ String.join ((contextWindow cs).map cellSnippet)

/-- The prompt rendered by `LearningAgent.explain_concept` (the full text
handed to the generation backend). -/
def explainPrompt (cell_content : String) (cell_index : Int)
    (context_cells : Option (List Cell)) : String :=
  "You are a patient, expert programming tutor helping a student understand Jupyter notebook code.\n\n"
    ++ buildContext context_cells
    ++ "\n\nCurrent cell (Cell " ++ toString cell_index ++ "):\n```python\n"
    ++ cell_content
    ++ "\n```\n\nPlease explain this cell by covering:\n"
    ++ "1. **What it does**: A clear, simple explanation of what this code accomplishes\n"
    ++ "2. **Key concepts**: The important programming or AI concepts being demonstrated\n"
    ++ "3. **Why it matters**: How this fits into the bigger picture of learning about AI agents\n"
    ++ "4. **Connection**: How this builds on or relates to previous cells\n\n"
    ++ "Keep your explanation clear, concise, and encouraging. Use analogies when helpful.\n"
    ++ "Format your response in markdown.\n"

/-- The prompt rendered by `LearningAgent.suggest_experiments`; the
`cell_index` argument exists in the Python signature but is never
interpolated into the template. -/
def experimentsPrompt (cell_content : String) (_cell_index : Int) : String :=
  "You are a creative programming tutor who believes students learn best by experimenting.\n\n"
    ++ "Here\x27s a code cell from a Jupyter notebook:\n\n```python\n"
    ++ cell_content
    ++ "\n```\n\nPlease suggest 3-5 specific experiments the student can try to deepen their understanding. For each experiment:\n"
    ++ "1. Describe what to modify in the code\n"
    ++ "2. Predict what will happen\n"
    ++ "3. Explain what concept this experiment demonstrates\n\n"
    ++ "Make the experiments progressively more challenging:\n"
    ++ "- Start with simple modifications (change a value, remove a parameter)\n"
    ++ "- Progress to more complex changes (restructure code, add features)\n\n"
    ++ "Format each experiment like this:\n\n"
    ++ "### Experiment N: [Catchy title]\n"
    ++ "**What to do:** [Specific code change]\n"
    ++ "**Prediction:** [What will happen]\n"
    ++ "**Why it matters:** [What concept this teaches]\n"
    ++ "**Code snippet:**\n```python\n[Modified code]\n```\n\n"
    ++ "Be specific with code examples. Format your response in markdown.\n"

/-- The dictionary `LearningAgent.analyze_cell` returns: the `error` and
`info` dictionaries, or the combined result; in the combined case the two
prompt strings record the two generation requests issued (explanation
first, then experiments). -/
inductive AnalyzeOutcome where
  | err (msg : String)
  | info (msg : String)
  | analyzed (cell_index : Int) (cell_content : String)
      (explanationReq experimentsReq : String)
  deriving DecidableEq, Repr

/-- The prompts a given outcome sent to the generation backend. -/
def AnalyzeOutcome.promptsIssued : AnalyzeOutcome → List String
  | .err _ => []
  | .info _ => []
  | .analyzed _ _ e x => [e, x]

/-- The tail of `analyze_cell` once the target cell has been selected:
the markdown short-circuit, the `cells[:cell_index]` context slice, and
the two generation requests. -/
def analyzeTarget (cells : List Cell) (cell_index : Int) (target : Cell) : AnalyzeOutcome :=
  if target.type ≠ "code" then
    .info ("Cell " ++ toString cell_index ++ " is a markdown cell, not code.")
  else
    let context_cells : List Cell :=
      if 0 < cell_index then cells.take cell_index.toNat else []
    .analyzed cell_index target.source
      (explainPrompt target.source cell_index (some context_cells))
      (experimentsPrompt target.source cell_index)

/-- `LearningAgent.analyze_cell`: parse, range-check `cell_index >= len(cells)`,
index into the cell list, and analyze the target. Exceptions raised by
parsing or by the list indexing propagate uncaught. -/
def analyze_cell (nb : Notebook) (cell_index : Int) : Except PyError AnalyzeOutcome :=
  match parse_notebook nb with
  | .error e => .error e
  | .ok cells =>
    if (cells.length : Int) ≤ cell_index then
      .ok (.err ("Cell index " ++ toString cell_index ++ " out of range. Notebook has "
        ++ toString cells.length ++ " cells."))
    else
      match pyGet cells cell_index with
      | .error e => .error e
      | .ok target => .ok (analyzeTarget cells cell_index target)

/-- Number of generation requests an `analyze_cell` call issues: none when
an exception escapes or an error/info dictionary is returned, two for a
full analysis. -/
def analyzeGenCount : Except PyError AnalyzeOutcome → Nat
  | .error _ => 0
  | .ok o => o.promptsIssued.length

/-- Whether an `analyze_cell` call returned the out-of-range error
dictionary. -/
def analyzeIsErr : Except PyError AnalyzeOutcome → Bool
  | .ok (.err _) => true
  | _ => false

/-- The slice of IPython state read by the notebook-helper functions:
`ipython.execution_count` (possibly `None`), the dense
`history_manager.input_hist_parsed` list when that attribute exists, and
the sparse `In` mapping of `user_ns` when that key exists. -/
structure IPythonState where
  execution_count : Option Int
  input_hist_parsed : Option (List String)
  user_ns_In : Option (List (Int × String))
  deriving DecidableEq, Repr

/-- Python dict lookup `d[k]`: the stored value, or a raised `KeyError`. -/
def dictGet (d : List (Int × String)) (k : Int) : Except PyError String :=
  match d.lookup k with
  | some v => .ok v
  | none => .error (.keyError (toString k))

/-- The body of the `try` block shared by the three live helpers: when the
history manager has `input_hist_parsed`, index it (guarded by
`prev_execution < len(...)`, else `""`); otherwise fall back to the `In`
dict of `user_ns` when present, else `""`. -/
def resolvePrevAttempt (ip : IPythonState) (prev_execution : Int) : Except PyError String :=
  match ip.input_hist_parsed with
  | some hist =>
    if prev_execution < (hist.length : Int) then pyGet hist prev_execution else .ok ""
  | none =>
    match ip.user_ns_In with
    | some d => dictGet d prev_execution
    | none => .ok ""

/-- The resolved previous-cell text: the `except (IndexError, KeyError)`
handler turns any lookup exception into `""`. -/
def resolvePrev (ip : IPythonState) (prev_execution : Int) : String :=
  match resolvePrevAttempt ip prev_execution with
  | .ok s => s
  | .error _ => ""

/-- Visible outcome of a live helper call: a displayed warning, or the list
of prompts sent to the generation backend. -/
inductive LiveOutcome where
  | warning (msg : String)
  | generated (prompts : List String)
  deriving DecidableEq, Repr

/-- Number of generation requests a live helper call issues. -/
def liveGenCount : LiveOutcome → Nat
  | .warning _ => 0
  | .generated ps => ps.length

/-- `notebook_helper.explain_this_cell`: ordinal guard, previous-cell
resolution, emptiness guard, then one explanation request. -/
def explain_this_cell (ip : IPythonState) : LiveOutcome :=
  match ip.execution_count with
  | none => .warning "⚠️ Need at least one previous cell to explain."
  | some current_execution_count =>
    if current_execution_count ≤ 1 then
      .warning "⚠️ Need at least one previous cell to explain."
    else
      let prev_execution := current_execution_count - 1
      let prev_cell := resolvePrev ip prev_execution
      if prev_cell = "" ∨ pyStrip prev_cell = "" then
        .warning "⚠️ Previous cell appears to be empty."
      else
        .generated [explainPrompt (pyStrip prev_cell) prev_execution none]

/-- `notebook_helper.experiments_for_this_cell`: same guards, then one
experiments request. -/
def experiments_for_this_cell (ip : IPythonState) : LiveOutcome :=
  match ip.execution_count with
  | none => .warning "⚠️ Need at least one previous cell to generate experiments for."
  | some current_execution_count =>
    if current_execution_count ≤ 1 then
      .warning "⚠️ Need at least one previous cell to generate experiments for."
    else
      let prev_execution := current_execution_count - 1
      let prev_cell := resolvePrev ip prev_execution
      if prev_cell = "" ∨ pyStrip prev_cell = "" then
        .warning "⚠️ Previous cell appears to be empty."
      else
        .generated [experimentsPrompt (pyStrip prev_cell) prev_execution]

/-- `notebook_helper.teach_me_this_cell`: same guards, then the explanation
request followed by the experiments request. -/
def teach_me_this_cell (ip : IPythonState) : LiveOutcome :=
  match ip.execution_count with
  | none => .warning "⚠️ Need at least one previous cell to teach."
  | some current_execution_count =>
    if current_execution_count ≤ 1 then
      .warning "⚠️ Need at least one previous cell to teach."
    else
      let prev_execution := current_execution_count - 1
      let prev_cell := resolvePrev ip prev_execution
      if prev_cell = "" ∨ pyStrip prev_cell = "" then
        .warning "⚠️ Previous cell appears to be empty."
      else
        .generated [explainPrompt (pyStrip prev_cell) prev_execution none,
          experimentsPrompt (pyStrip prev_cell) prev_execution]

/-- A lookup for the previous entry misses in the structure the resolver
actually consults: the dense list is too short when it exists, otherwise
the sparse `In` mapping (when present) has no entry for the key. -/
def historyMissing (ip : IPythonState) (k : Int) : Bool :=
  match ip.input_hist_parsed with
  | some hist => decide ((hist.length : Int) ≤ k)
  | none =>
    match ip.user_ns_In with
    | some d => (d.lookup k).isNone
    | none => true

/-- Sample document: a single code cell. -/
def nbOneCode : Notebook := ⟨some [⟨some "code", some (.str "x = 1"), none⟩]⟩

/-- Sample document: a single code cell whose source is empty. -/
def nbEmptySource : Notebook := ⟨some [⟨some "code", some (.str ""), none⟩]⟩

/-- Sample document: a single code cell whose source is all whitespace. -/
def nbWhitespaceSource : Notebook := ⟨some [⟨some "code", some (.str "   "), none⟩]⟩

/-- Sample document whose root object lacks the `cells` key. -/
def nbNoCellsKey : Notebook := ⟨none⟩

/-- Sample document with one cell lacking the `cell_type` key. -/
def nbMissingType : Notebook := ⟨some [⟨none, some (.str "x = 1"), none⟩]⟩

/-- Sample document: a code cell followed by a markdown cell. -/
def nbTwoCells : Notebook :=
  ⟨some [⟨some "code", some (.str "a = 1"), none⟩,
    ⟨some "markdown", some (.str "# notes"), none⟩]⟩

/-- The parsed cell records of `nbTwoCells`. -/
def cellsTwo : List Cell :=
  [⟨0, "code", "a = 1", "cell-0"⟩, ⟨1, "markdown", "# notes", "cell-1"⟩]

/-- Python slicing takes the whole string when it is short enough. -/
theorem pyTake_of_length_le (s : String) (n : Nat) (h : s.length ≤ n) :
    pyTake s n = s := by
  unfold pyTake
  rw [List.take_of_length_le (show s.toList.length ≤ n from h)]
  cases s
  rfl

/-- Unfolding of `analyze_cell` once the parse result is known. -/
theorem analyze_cell_eq_of_parse (nb : Notebook) (cells : List Cell)
    (hp : parse_notebook nb = Except.ok cells) (i : Int) :
    analyze_cell nb i =
      if (cells.length : Int) ≤ i then
        Except.ok (AnalyzeOutcome.err ("Cell index " ++ toString i
          ++ " out of range. Notebook has " ++ toString cells.length ++ " cells."))
      else
        match pyGet cells i with
        | .error e => .error e
        | .ok target => .ok (analyzeTarget cells i target) := by
  unfold analyze_cell
  rw [hp]

/-- `analyzeTarget` only ever produces the info or the analyzed outcome. -/
theorem analyzeTarget_not_err (cells : List Cell) (i : Int) (t : Cell) :
    analyzeIsErr (Except.ok (analyzeTarget cells i t)) = false := by
  unfold analyzeTarget
  split
  · rfl
  · rfl

/-- C1: the claim states that a snippet built for a cell whose source is at
most 100 characters equals the source verbatim, with the truncation marker
appended only when the source exceeds 100 characters. This is false: the
format string of `explain_concept` appends `...` unconditionally, so a
5-character source still gets the marker. -/
theorem claim1_counterexample :
    ("x = 1").length ≤ 100 ∧
    cellSnippet ⟨0, "code", "x = 1", "cell-0"⟩ = "Cell 0: " ++ "x = 1" ++ "...\n" ∧
    cellSnippet ⟨0, "code", "x = 1", "cell-0"⟩ ≠ "Cell 0: " ++ "x = 1" ++ "\n" := by
  refine ⟨by decide, by decide, by decide⟩

/-- C1 (amended): every snippet carries at most the first 100 characters
of its source, and the marker `...` is appended unconditionally; when the
source is at most 100 characters the text between the position marker and
the truncation marker is the source verbatim. -/
theorem claim1_amended (c : Cell) :
    (pyTake c.source 100).length ≤ 100 ∧
    cellSnippet c = "Cell " ++ toString c.index ++ ": " ++ pyTake c.source 100 ++ "...\n" ∧
    (c.source.length ≤ 100 →
      cellSnippet c = "Cell " ++ toString c.index ++ ": " ++ c.source ++ "...\n") := by
  refine ⟨?_, rfl, ?_⟩
  · show (c.source.toList.take 100).length ≤ 100
    exact List.length_take_le 100 _
  · intro h
    unfold cellSnippet
    rw [pyTake_of_length_le _ _ h]

/-- Concrete instance of the amended C1 statement. -/
theorem claim1_amended_witness :
    cellSnippet ⟨7, "code", "y = 2", "cell-7"⟩
      = "Cell " ++ toString (7 : Nat) ++ ": " ++ "y = 2" ++ "...\n" :=
  (claim1_amended ⟨7, "code", "y = 2", "cell-7"⟩).2.2 (by decide)

/-- C2: the claim states the context window holds exactly the last 3
entries of kind `code`, hence 3 snippets whenever at least 3 code cells
precede the target. This is false: `explain_concept` slices the last 3
cells of any kind and only then filters for code, so with three code cells
followed by a markdown cell only two snippets survive. -/
theorem claim2_counterexample :
    (([⟨0, "code", "a", "cell-0"⟩, ⟨1, "code", "b", "cell-1"⟩,
        ⟨2, "code", "c", "cell-2"⟩, ⟨3, "markdown", "# t", "cell-3"⟩] : List Cell).filter
      (fun c => c.type == "code")).length = 3 ∧
    (contextWindow [⟨0, "code", "a", "cell-0"⟩, ⟨1, "code", "b", "cell-1"⟩,
      ⟨2, "code", "c", "cell-2"⟩, ⟨3, "markdown", "# t", "cell-3"⟩]).length = 2 ∧
    contextWindow [⟨0, "code", "a", "cell-0"⟩, ⟨1, "code", "b", "cell-1"⟩,
      ⟨2, "code", "c", "cell-2"⟩, ⟨3, "markdown", "# t", "cell-3"⟩]
      ≠ [⟨0, "code", "a", "cell-0"⟩, ⟨1, "code", "b", "cell-1"⟩, ⟨2, "code", "c", "cell-2"⟩] := by
  refine ⟨by decide, by decide, by decide⟩

/-- C2 (amended): the context window is the code cells among the last 3
preceding cells of any kind, in original order (a sublist of the input of
length at most 3); when at most 3 cells precede the target this coincides
with all preceding code cells. -/
theorem claim2_amended (l : List Cell) :
    contextWindow l = (l.drop (l.length - 3)).filter (fun c => c.type == "code") ∧
    List.Sublist (contextWindow l) l ∧
    (contextWindow l).length ≤ 3 ∧
    (l.length ≤ 3 → contextWindow l = l.filter (fun c => c.type == "code")) := by
  refine ⟨rfl, ?_, ?_, ?_⟩
  · exact (List.filter_sublist _).trans (List.drop_sublist _ _)
  · calc (contextWindow l).length ≤ (lastThree l).length := List.length_filter_le _ _
      _ = l.length - (l.length - 3) := List.length_drop _ _
      _ ≤ 3 := by omega
  · intro h
    unfold contextWindow lastThree
    rw [Nat.sub_eq_zero_of_le h, List.drop_zero]

/-- Concrete instance of the amended C2 statement: with two preceding
cells, the window is exactly the preceding code cells. -/
theorem claim2_amended_witness :
    contextWindow [⟨0, "markdown", "# h", "cell-0"⟩, ⟨1, "code", "z = 3", "cell-1"⟩]
      = List.filter (fun c => c.type == "code")
          [⟨0, "markdown", "# h", "cell-0"⟩, ⟨1, "code", "z = 3", "cell-1"⟩] :=
  (claim2_amended _).2.2.2 (by decide)

/-- C10: prompt rendering is a pure function of its arguments, so two calls
with identical kind, subject code, cell index and context cells yield
byte-identical prompt text, for both the explanation and the experiments
templates. -/
theorem claim10_compose_deterministic (k1 k2 : String) (i1 i2 : Int)
    (c1 c2 : Option (List Cell)) (hk : k1 = k2) (hi : i1 = i2) (hc : c1 = c2) :
    explainPrompt k1 i1 c1 = explainPrompt k2 i2 c2 ∧
    experimentsPrompt k1 i1 = experimentsPrompt k2 i2 := by
  subst hk
  subst hi
  subst hc
  exact ⟨rfl, rfl⟩

/-- Unfolding of `resolvePrev` through its exception handler. -/
theorem resolvePrev_eq (ip : IPythonState) (k : Int) :
    resolvePrev ip k = match resolvePrevAttempt ip k with
      | Except.ok s => s
      | Except.error _ => "" := rfl

/-- Resolver step when the dense history list exists. -/
theorem resolvePrevAttempt_dense (ec : Option Int) (hist : List String)
    (d : Option (List (Int × String))) (k : Int) :
    resolvePrevAttempt ⟨ec, some hist, d⟩ k
      = if k < (hist.length : Int) then pyGet hist k else Except.ok "" := rfl

/-- Resolver step when only the sparse mapping exists. -/
theorem resolvePrevAttempt_sparse (ec : Option Int) (d : List (Int × String)) (k : Int) :
    resolvePrevAttempt ⟨ec, none, some d⟩ k = dictGet d k := rfl

/-- Resolver step when neither history structure exists. -/
theorem resolvePrevAttempt_nohist (ec : Option Int) (k : Int) :
    resolvePrevAttempt ⟨ec, none, none⟩ k = Except.ok "" := rfl

/-- C8: when the current execution ordinal is undefined (`None`), `0` or
`1`, every live helper returns the no-previous-cell warning, issues zero
generation requests, and its result does not depend on the history
structures at all (no history lookup is performed). -/
theorem claim8_ordinal_guard (ip : IPythonState)
    (h : ip.execution_count = none ∨ ip.execution_count = some 0 ∨
      ip.execution_count = some 1) :
    teach_me_this_cell ip = .warning "⚠️ Need at least one previous cell to teach." ∧
    explain_this_cell ip = .warning "⚠️ Need at least one previous cell to explain." ∧
    experiments_for_this_cell ip
      = .warning "⚠️ Need at least one previous cell to generate experiments for." ∧
    liveGenCount (teach_me_this_cell ip) = 0 ∧
    liveGenCount (explain_this_cell ip) = 0 ∧
    liveGenCount (experiments_for_this_cell ip) = 0 ∧
    (∀ hist d, teach_me_this_cell ⟨ip.execution_count, hist, d⟩ = teach_me_this_cell ip ∧
      explain_this_cell ⟨ip.execution_count, hist, d⟩ = explain_this_cell ip ∧
      experiments_for_this_cell ⟨ip.execution_count, hist, d⟩
        = experiments_for_this_cell ip) := by
  obtain ⟨ec, ih, uns⟩ := ip
  simp only [IPythonState.execution_count] at h
  rcases h with h | h | h <;> subst h <;>
    exact ⟨rfl, rfl, rfl, rfl, rfl, rfl, fun hist d => ⟨rfl, rfl, rfl⟩⟩

/-- Concrete instance of C8 at execution ordinal 1. -/
theorem claim8_witness :
    teach_me_this_cell ⟨some 1, some ["x = 1"], none⟩
      = LiveOutcome.warning "⚠️ Need at least one previous cell to teach." :=
  (claim8_ordinal_guard ⟨some 1, some ["x = 1"], none⟩ (Or.inr (Or.inr rfl))).1

/-- C7: the resolver consults the dense `input_hist_parsed` list first and
only falls back to the sparse `In` mapping when the dense one is absent
(so the result never depends on the sparse map when the dense list
exists); any lookup miss resolves to the empty string, and a live session
whose history lacks the entry at `currentOrdinal - 1` gets a warning and
zero generation requests from every live helper. -/
theorem claim7_missing_history (ip : IPythonState) (n : Int)
    (he : ip.execution_count = some n) (hn : 1 < n)
    (hm : historyMissing ip (n - 1) = true) :
    resolvePrev ip (n - 1) = "" ∧
    teach_me_this_cell ip = .warning "⚠️ Previous cell appears to be empty." ∧
    explain_this_cell ip = .warning "⚠️ Previous cell appears to be empty." ∧
    experiments_for_this_cell ip = .warning "⚠️ Previous cell appears to be empty." ∧
    liveGenCount (teach_me_this_cell ip) = 0 ∧
    liveGenCount (explain_this_cell ip) = 0 ∧
    liveGenCount (experiments_for_this_cell ip) = 0 ∧
    (∀ hist d1 d2 ec k, resolvePrev ⟨ec, some hist, d1⟩ k = resolvePrev ⟨ec, some hist, d2⟩ k) := by
  have hres : resolvePrev ip (n - 1) = "" := by
    obtain ⟨ec, ih, uns⟩ := ip
    unfold historyMissing at hm
    simp only at hm
    cases ih with
    | some hist =>
      simp only [decide_eq_true_eq] at hm
      rw [resolvePrev_eq, resolvePrevAttempt_dense,
        if_neg (by omega : ¬ (n - 1 < (hist.length : Int)))]
    | none =>
      cases uns with
      | some d =>
        simp only [Option.isNone_iff_eq_none] at hm
        rw [resolvePrev_eq, resolvePrevAttempt_sparse]
        simp [dictGet, hm]
      | none => rfl
  refine ⟨hres, ?_, ?_, ?_, ?_, ?_, ?_, ?_⟩
  · simp only [teach_me_this_cell, he]
    rw [if_neg (by omega : ¬ n ≤ 1)]
    simp [hres]
  · simp only [explain_this_cell, he]
    rw [if_neg (by omega : ¬ n ≤ 1)]
    simp [hres]
  · simp only [experiments_for_this_cell, he]
    rw [if_neg (by omega : ¬ n ≤ 1)]
    simp [hres]
  · simp only [teach_me_this_cell, he]
    rw [if_neg (by omega : ¬ n ≤ 1)]
    simp [hres, liveGenCount]
  · simp only [explain_this_cell, he]
    rw [if_neg (by omega : ¬ n ≤ 1)]
    simp [hres, liveGenCount]
  · simp only [experiments_for_this_cell, he]
    rw [if_neg (by omega : ¬ n ≤ 1)]
    simp [hres, liveGenCount]
  · intro hist d1 d2 ec k
    rfl

/-- Concrete instance of C7: ordinal 3, dense history with no entry at
ordinal 2. -/
theorem claim7_witness :
    teach_me_this_cell ⟨some 3, some ["", "x = 1"], none⟩
      = LiveOutcome.warning "⚠️ Previous cell appears to be empty." :=
  (claim7_missing_history ⟨some 3, some ["", "x = 1"], none⟩ 3 rfl (by decide) (by decide)).2.1

/-- Concrete instance of C10. -/
theorem claim10_witness :
    explainPrompt "x = 1" 0 none = explainPrompt "x = 1" 0 none ∧
    experimentsPrompt "x = 1" 0 = experimentsPrompt "x = 1" 0 :=
  claim10_compose_deterministic "x = 1" "x = 1" 0 0 none none rfl rfl rfl

/-- C3: the claim states that on every execution path an empty or
all-whitespace source short-circuits into a warning with zero generation
requests. This is false for the stored-document path: `analyze_cell` never
checks emptiness, so a code cell with empty source still triggers both
generation requests. -/
theorem claim3_counterexample :
    pyStrip (normalizeSource (SourceField.str "")) = "" ∧
    analyzeGenCount (analyze_cell nbEmptySource 0) = 2 ∧
    analyzeIsErr (analyze_cell nbEmptySource 0) = false := by
  refine ⟨rfl, rfl, rfl⟩

/-- C3 (amended): only the live-session entry points guard against empty
or all-whitespace source: whenever the resolved previous-cell text strips
to the empty string they return the empty-cell warning and issue zero
generation requests; the stored-document path `analyze_cell` performs no
such check and issues its two generation requests even for an
all-whitespace code cell. -/
theorem claim3_amended (ip : IPythonState) (n : Int)
    (he : ip.execution_count = some n) (hn : 1 < n)
    (ht : pyStrip (resolvePrev ip (n - 1)) = "") :
    teach_me_this_cell ip = .warning "⚠️ Previous cell appears to be empty." ∧
    explain_this_cell ip = .warning "⚠️ Previous cell appears to be empty." ∧
    experiments_for_this_cell ip = .warning "⚠️ Previous cell appears to be empty." ∧
    liveGenCount (teach_me_this_cell ip) = 0 ∧
    analyzeGenCount (analyze_cell nbWhitespaceSource 0) = 2 := by
  refine ⟨?_, ?_, ?_, ?_, rfl⟩
  · simp only [teach_me_this_cell, he]
    rw [if_neg (by omega : ¬ n ≤ 1)]
    simp [ht]
  · simp only [explain_this_cell, he]
    rw [if_neg (by omega : ¬ n ≤ 1)]
    simp [ht]
  · simp only [experiments_for_this_cell, he]
    rw [if_neg (by omega : ¬ n ≤ 1)]
    simp [ht]
  · simp only [teach_me_this_cell, he]
    rw [if_neg (by omega : ¬ n ≤ 1)]
    simp [ht, liveGenCount]

/-- Concrete instance of the amended C3 statement: ordinal 2, previous cell
recorded as whitespace only. -/
theorem claim3_amended_witness :
    teach_me_this_cell ⟨some 2, some ["z", "   "], none⟩
      = LiveOutcome.warning "⚠️ Previous cell appears to be empty." :=
  (claim3_amended ⟨some 2, some ["z", "   "], none⟩ 2 rfl (by decide) (by decide)).1

/-- C4: the claim states every out-of-range index, negative ones included,
yields the out-of-range error result. This is false: `analyze_cell` only
checks `cell_index >= len(cells)`, so index `-1` on a one-cell notebook is
accepted, analyzed, and triggers both generation requests. -/
theorem claim4_counterexample :
    analyzeIsErr (analyze_cell nbOneCode (-1)) = false ∧
    analyzeGenCount (analyze_cell nbOneCode (-1)) = 2 := by
  refine ⟨rfl, rfl⟩

/-- C4 (amended): for `cellIndex ≥ cellCount` the call returns the
out-of-range error dictionary and issues zero generation requests; negative
indices are not validated — those below `-cellCount` escape as an uncaught
`IndexError` instead of the error result. -/
theorem claim4_amended (nb : Notebook) (cells : List Cell) (i : Int)
    (hp : parse_notebook nb = Except.ok cells) :
    ((cells.length : Int) ≤ i →
      analyze_cell nb i = Except.ok (AnalyzeOutcome.err ("Cell index " ++ toString i
        ++ " out of range. Notebook has " ++ toString cells.length ++ " cells.")) ∧
      analyzeGenCount (analyze_cell nb i) = 0) ∧
    (i < -(cells.length : Int) →
      analyze_cell nb i = Except.error PyError.indexError) := by
  have hcell := analyze_cell_eq_of_parse nb cells hp i
  constructor
  · intro hi
    constructor
    · rw [hcell, if_pos hi]
    · rw [hcell, if_pos hi]
      rfl
  · intro hi
    rw [hcell, if_neg (by omega : ¬ ((cells.length : Int) ≤ i))]
    unfold pyGet
    rw [dif_neg (by omega : ¬ (0 ≤ i ∧ i < (cells.length : Int))),
      dif_neg (by omega : ¬ (-(cells.length : Int) ≤ i ∧ i < 0))]

/-- Concrete instance of the amended C4 statement: index 5 on a one-cell
notebook. -/
theorem claim4_amended_witness :
    analyze_cell nbOneCode 5 = Except.ok (AnalyzeOutcome.err ("Cell index " ++ toString (5 : Int)
      ++ " out of range. Notebook has " ++ toString (1 : Nat) ++ " cells.")) ∧
    analyzeGenCount (analyze_cell nbOneCode 5) = 0 :=
  (claim4_amended nbOneCode [⟨0, "code", "x = 1", "cell-0"⟩] 5 rfl).1 (by decide)

/-- C5: for a negative index within `[-cellCount, -1]`, `analyze_cell`
does not return the out-of-range error result; it selects the cell at
position `cellCount + cellIndex` (Python negative indexing) and analyzes
that cell. -/
theorem claim5_negative_indexing (nb : Notebook) (cells : List Cell) (i : Int)
    (hp : parse_notebook nb = Except.ok cells)
    (hlo : -(cells.length : Int) ≤ i) (hhi : i < 0) :
    analyzeIsErr (analyze_cell nb i) = false ∧
    ∃ target, cells.get? ((cells.length : Int) + i).toNat = some target ∧
      analyze_cell nb i = Except.ok (analyzeTarget cells i target) := by
  have hcell := analyze_cell_eq_of_parse nb cells hp i
  have hneg : ¬ ((cells.length : Int) ≤ i) := by omega
  have hlt : ((cells.length : Int) + i).toNat < cells.length := by omega
  have hget : pyGet cells i = Except.ok (cells.get ⟨((cells.length : Int) + i).toNat, hlt⟩) := by
    unfold pyGet
    rw [dif_neg (by omega : ¬ (0 ≤ i ∧ i < (cells.length : Int))), dif_pos ⟨hlo, hhi⟩]
  rw [hcell, if_neg hneg, hget]
  exact ⟨analyzeTarget_not_err _ _ _, cells.get ⟨_, hlt⟩, List.get?_eq_get hlt, rfl⟩

/-- Concrete instance of C5: index -2 on a two-cell notebook selects the
first cell. -/
theorem claim5_witness :
    analyzeIsErr (analyze_cell nbTwoCells (-2)) = false ∧
    ∃ target, cellsTwo.get? ((cellsTwo.length : Int) + (-2)).toNat = some target ∧
      analyze_cell nbTwoCells (-2) = Except.ok (analyzeTarget cellsTwo (-2) target) :=
  claim5_negative_indexing nbTwoCells cellsTwo (-2) rfl (by decide) (by decide)

/-- A cell whose raw record lacks `cell_type` or `source` makes the whole
parsing loop raise. -/
theorem parseCells_error_of_bad (cs : List RawCell) (k idx : Nat) (c : RawCell)
    (hk : cs.get? k = some c) (hbad : c.cell_type = none ∨ c.source = none) :
    ∃ e, parseCells idx cs = Except.error e := by
  induction cs generalizing k idx with
  | nil => simp at hk
  | cons hd tl ih =>
    cases k with
    | zero =>
      simp only [List.get?_cons_zero, Option.some.injEq] at hk
      subst hk
      unfold parseCells parseCell
      rcases hbad with hb | hb
      · rw [hb]
        exact ⟨_, rfl⟩
      · cases hct : hd.cell_type with
        | none => exact ⟨_, rfl⟩
        | some t =>
          rw [hb]
          exact ⟨_, rfl⟩
    | succ k2 =>
      simp only [List.get?_cons_succ] at hk
      obtain ⟨e, he⟩ := ih k2 (idx + 1) hk
      unfold parseCells
      cases hpc : parseCell idx hd with
      | error e2 => exact ⟨e2, rfl⟩
      | ok cell =>
        rw [he]
        exact ⟨e, rfl⟩

/-- C6: the claim states that a document lacking the `cells` key, or a cell
lacking `cell_type`/`source`, produces a structured `MalformedDocument`
value returned to the caller rather than an escaping exception. The first
half is right in substance (parsing does fail there), but the failure is a
raised `KeyError` that propagates uncaught through `analyze_cell`, never a
returned value. -/
theorem claim6_counterexample :
    parse_notebook nbNoCellsKey = Except.error (PyError.keyError "cells") ∧
    analyze_cell nbNoCellsKey 0 = Except.error (PyError.keyError "cells") ∧
    parse_notebook nbMissingType = Except.error (PyError.keyError "cell_type") ∧
    analyze_cell nbMissingType 0 = Except.error (PyError.keyError "cell_type") := by
  refine ⟨rfl, rfl, rfl, rfl⟩

/-- C6 (amended): a missing `cells` key raises `KeyError("cells")` and a
cell missing `cell_type` or `source` raises a `KeyError` as well; in both
cases the exception propagates uncaught through `analyze_cell` to the
caller instead of being returned as a structured error value. -/
theorem claim6_amended (nb : Notebook) :
    (nb.cells = none →
      parse_notebook nb = Except.error (PyError.keyError "cells") ∧
      analyze_cell nb 0 = Except.error (PyError.keyError "cells")) ∧
    (∀ cs k c, nb.cells = some cs → cs.get? k = some c →
      (c.cell_type = none ∨ c.source = none) →
      ∃ e, parse_notebook nb = Except.error e ∧ analyze_cell nb 0 = Except.error e) := by
  constructor
  · intro h
    have hp : parse_notebook nb = Except.error (PyError.keyError "cells") := by
      unfold parse_notebook
      rw [h]
    refine ⟨hp, ?_⟩
    unfold analyze_cell
    rw [hp]
  · intro cs k c hcs hk hbad
    obtain ⟨e, he⟩ := parseCells_error_of_bad cs k 0 c hk hbad
    have hp : parse_notebook nb = Except.error e := by
      unfold parse_notebook
      rw [hcs]
      exact he
    refine ⟨e, hp, ?_⟩
    unfold analyze_cell
    rw [hp]

/-- Concrete instance of the amended C6 statement. -/
theorem claim6_amended_witness :
    parse_notebook nbNoCellsKey = Except.error (PyError.keyError "cells") ∧
    analyze_cell nbNoCellsKey 0 = Except.error (PyError.keyError "cells") :=
  (claim6_amended nbNoCellsKey).1 rfl

/-- Cells whose sources are a plain string and the same text split into
fragments parse to the same record. -/
theorem parseCell_congr (idx : Nat) (a b : RawCell)
    (ht : a.cell_type = b.cell_type) (hid : a.id = b.id)
    (hs : ∃ t frags, a.source = some (.str t) ∧ b.source = some (.fragments frags) ∧
      String.join frags = t) :
    parseCell idx a = parseCell idx b := by
  obtain ⟨t, frags, ha, hb, hj⟩ := hs
  unfold parseCell
  rw [← ht, ha, hb, hid]
  simp only [normalizeSource]
  rw [hj]

/-- Lifting of `parseCell_congr` to whole cell lists. -/
theorem parseCells_congr (cs1 cs2 : List RawCell) (idx : Nat)
    (h : List.Forall₂ (fun a b => a.cell_type = b.cell_type ∧ a.id = b.id ∧
      ∃ t frags, a.source = some (.str t) ∧ b.source = some (.fragments frags) ∧
        String.join frags = t) cs1 cs2) :
    parseCells idx cs1 = parseCells idx cs2 := by
  induction h generalizing idx with
  | nil => rfl
  | cons hab htail ih =>
    unfold parseCells
    rw [parseCell_congr idx _ _ hab.1 hab.2.1 hab.2.2, ih (idx + 1)]

/-- C9: a document whose sources are plain strings and the document
obtained by splitting each source into fragments whose in-order
concatenation is the same text parse to identical cell records; in
particular every `sourceText` value is identical. -/
theorem claim9_source_encoding (cs1 cs2 : List RawCell)
    (h : List.Forall₂ (fun a b => a.cell_type = b.cell_type ∧ a.id = b.id ∧
      ∃ t frags, a.source = some (.str t) ∧ b.source = some (.fragments frags) ∧
        String.join frags = t) cs1 cs2) :
    parse_notebook ⟨some cs1⟩ = parse_notebook ⟨some cs2⟩ := by
  unfold parse_notebook
  exact parseCells_congr cs1 cs2 0 h

/-- Concrete instance of C9: source `"ab"` against fragments
`["a", "b"]`. -/
theorem claim9_witness :
    parse_notebook ⟨some [⟨some "code", some (.str "ab"), none⟩]⟩
      = parse_notebook ⟨some [⟨some "code", some (.fragments ["a", "b"]), none⟩]⟩ :=
  claim9_source_encoding _ _
    (List.Forall₂.cons ⟨rfl, rfl, "ab", ["a", "b"], rfl, rfl, by decide⟩ List.Forall₂.nil)

end LearnComp
